import Mathlib

/-!
Shallow embedding of the petpropy correlation catalog (gas / oil / water
fluid-property correlations) and proofs about the claims of its
specification.

Python floats are modelled by real numbers; Python `**` is modelled by
`Real.rpow`, `math.exp` by `Real.exp`, `math.log` by `Real.log`,
`math.log10`/`numpy.log10` by `Real.logb 10`, and `round(x, n)` by
`roundTo n` below.  A Python function that can terminate with an
unbound-local fault (a code path that never assigns the returned
variable) is modelled with an `Option` result, `none` standing for the
raised error.
-/

open Real

namespace Petpropy

/-- Model of Python `round(x, n)`: rounding to `n` decimal digits.
Python rounds half to even while `round` rounds half up; the two agree
except at exact half-way ties, which none of the developments below
depend on. -/
noncomputable def roundTo (n : ℕ) (x : ℝ) : ℝ := (round (x * 10 ^ n) : ℤ) / 10 ^ n

/-! ### The broadcasting wrapper (src/petpropy/_tools/tools.py)

`vectorize_decorator` wraps a scalar formula with `numpy.vectorize`.
The model below captures the rank-≤1 fragment of numpy broadcasting the
spec describes: every argument is either a scalar or a one-dimensional
array; scalars are repeated, length-1 arrays are stretched, arrays of
the common length `n` are consumed element-wise, and incompatible
lengths give a shape error (`none`). -/

/-- An argument to a vectorized formula: a scalar or a 1-D array. -/
inductive NpArg where
  | scalar (x : ℝ)
  | arr (xs : List ℝ)

/-- Length contributed to broadcasting by an argument (`none` for scalars). -/
def NpArg.lenOf : NpArg → Option ℕ
  | .scalar _ => none
  | .arr xs => some xs.length

/-- Element of an argument at broadcast index `i`: scalars repeat,
length-1 arrays stretch, other arrays are indexed. -/
def NpArg.getElt : NpArg → ℕ → ℝ
  | .scalar x, _ => x
  | .arr xs, i => if xs.length = 1 then xs.headD 0 else xs.getD i 0

/-- Model of the wrapped function produced by `vectorize_decorator`
(src/petpropy/_tools/tools.py lines 4-6): broadcast the arguments and
apply the scalar formula `f` element-wise; all-scalar calls produce a
scalar. `none` models the numpy shape error on incompatible lengths. -/
def vectorize_decorator (f : List ℝ → ℝ) (args : List NpArg) : Option NpArg :=
  let lens := args.filterMap NpArg.lenOf
  match lens with
  | [] => some (.scalar (f (args.map fun a => a.getElt 0)))
  | _ :: _ =>
    let n := lens.foldr max 0
    if lens.all fun l => l = 1 || l = n then
      some (.arr ((List.range n).map fun i => f (args.map fun a => a.getElt i)))
    else none

/-- A sample scalar formula (sum of the parameters) used to instantiate
the broadcasting wrapper at concrete inputs. -/
def sumFormula : List ℝ → ℝ := fun l => l.foldr (· + ·) 0

end Petpropy

namespace Petpropy.Zfac

/-! ### Gopal piecewise z-factor and gas-compressibility correlations

src/petpropy/gas/gas_compressibility_factor.py lines 176-223 and
src/petpropy/gas/gas_compressibility.py lines 91-143.  The Python code
assigns `z` (resp. `dZr`) only inside the nested band conditionals; for
inputs matched by no band the function raises an unbound-local error,
modelled here by `none`. -/

/-- The reduced-pressure/reduced-temperature region on which the Gopal
correlation assigns a value, exactly as the nested conditionals of the
source cover it (three pressure rows of four temperature bands each,
and a fourth pressure row with a single temperature band). -/
def gopalBands (Ppr Tpr : ℝ) : Prop :=
  ((0.2 ≤ Ppr ∧ Ppr ≤ 1.2) ∧ (1.05 ≤ Tpr ∧ Tpr ≤ 1.2)) ∨
  ((0.2 ≤ Ppr ∧ Ppr ≤ 1.2) ∧ (1.2 ≤ Tpr ∧ Tpr ≤ 1.4)) ∨
  ((0.2 ≤ Ppr ∧ Ppr ≤ 1.2) ∧ (1.4 ≤ Tpr ∧ Tpr ≤ 2.0)) ∨
  ((0.2 ≤ Ppr ∧ Ppr ≤ 1.2) ∧ (2.0 ≤ Tpr ∧ Tpr ≤ 3.0)) ∨
  ((1.2 ≤ Ppr ∧ Ppr ≤ 2.8) ∧ (1.05 ≤ Tpr ∧ Tpr ≤ 1.2)) ∨
  ((1.2 ≤ Ppr ∧ Ppr ≤ 2.8) ∧ (1.2 ≤ Tpr ∧ Tpr ≤ 1.4)) ∨
  ((1.2 ≤ Ppr ∧ Ppr ≤ 2.8) ∧ (1.4 ≤ Tpr ∧ Tpr ≤ 2.0)) ∨
  ((1.2 ≤ Ppr ∧ Ppr ≤ 2.8) ∧ (2.0 ≤ Tpr ∧ Tpr ≤ 3.0)) ∨
  ((2.8 ≤ Ppr ∧ Ppr ≤ 5.4) ∧ (1.05 ≤ Tpr ∧ Tpr ≤ 1.2)) ∨
  ((2.8 ≤ Ppr ∧ Ppr ≤ 5.4) ∧ (1.2 ≤ Tpr ∧ Tpr ≤ 1.4)) ∨
  ((2.8 ≤ Ppr ∧ Ppr ≤ 5.4) ∧ (1.4 ≤ Tpr ∧ Tpr ≤ 2.0)) ∨
  ((2.8 ≤ Ppr ∧ Ppr ≤ 5.4) ∧ (2.0 ≤ Tpr ∧ Tpr ≤ 3.0)) ∨
  ((5.4 ≤ Ppr ∧ Ppr ≤ 15) ∧ (1.05 ≤ Tpr ∧ Tpr ≤ 3.0))

/-- Gopal z-factor correlation,
src/petpropy/gas/gas_compressibility_factor.py lines 176-223. -/
noncomputable def gopal (P T Ppc Tpc : ℝ) : Option ℝ :=
  let Ppr := P / Ppc
  let Tpr := T / Tpc
  if 0.2 ≤ Ppr ∧ Ppr ≤ 1.2 then
    if 1.05 ≤ Tpr ∧ Tpr ≤ 1.2 then
      some ((Ppr * ((1.6643 * Tpr) - 2.2114)) - (0.3647 * Tpr) + 1.4385)
    else if 1.2 ≤ Tpr ∧ Tpr ≤ 1.4 then
      some ((Ppr * ((0.0522 * Tpr) - 0.8511)) - (0.0364 * Tpr) + 1.0490)
    else if 1.4 ≤ Tpr ∧ Tpr ≤ 2.0 then
      some ((Ppr * ((0.1391 * Tpr) - 0.2988)) + (0.0007 * Tpr) + 0.9969)
    else if 2.0 ≤ Tpr ∧ Tpr ≤ 3.0 then
      some ((Ppr * ((0.0295 * Tpr) - 0.0825)) + (0.0009 * Tpr) + 0.9967)
    else none
  else if 1.2 ≤ Ppr ∧ Ppr ≤ 2.8 then
    if 1.05 ≤ Tpr ∧ Tpr ≤ 1.2 then
      some ((Ppr * ((-1.3570 * Tpr) + 1.4942)) + (4.6315 * Tpr) - 4.7009)
    else if 1.2 ≤ Tpr ∧ Tpr ≤ 1.4 then
      some ((Ppr * ((0.1717 * Tpr) - 0.3232)) + (0.5869 * Tpr) + 0.1229)
    else if 1.4 ≤ Tpr ∧ Tpr ≤ 2.0 then
      some ((Ppr * ((0.0984 * Tpr) - 0.2053)) + (0.0621 * Tpr) + 0.8580)
    else if 2.0 ≤ Tpr ∧ Tpr ≤ 3.0 then
      some ((Ppr * ((0.0211 * Tpr) - 0.0527)) + (0.0127 * Tpr) + 0.9549)
    else none
  else if 2.8 ≤ Ppr ∧ Ppr ≤ 5.4 then
    if 1.05 ≤ Tpr ∧ Tpr ≤ 1.2 then
      some ((Ppr * ((-0.3278 * Tpr) + 0.4752)) + (1.8223 * Tpr) - 1.9036)
    else if 1.2 ≤ Tpr ∧ Tpr ≤ 1.4 then
      some ((Ppr * ((-0.2521 * Tpr) + 0.3871)) + (1.6087 * Tpr) - 1.6635)
    else if 1.4 ≤ Tpr ∧ Tpr ≤ 2.0 then
      some ((Ppr * ((-0.0284 * Tpr) + 0.0625)) + (0.4714 * Tpr) - 0.0011)
    else if 2.0 ≤ Tpr ∧ Tpr ≤ 3.0 then
      some ((Ppr * ((0.0041 * Tpr) + 0.0039)) + (0.0607 * Tpr) + 0.7927)
    else none
  else if 5.4 ≤ Ppr ∧ Ppr ≤ 15 then
    if 1.05 ≤ Tpr ∧ Tpr ≤ 3.0 then
      some ((Ppr * ((0.711 + (3.66 * Tpr)) ^ (-1.4667 : ℝ))) - ((1.637) / ((0.319 * Tpr) + 0.522)) + 2.071)
    else none
  else none

/-- Gopal gas-compressibility correlation,
src/petpropy/gas/gas_compressibility.py lines 91-143: the same band
table selects the slope `dZr`, then `cg = ((1/Ppr) - (1/z)*dZr)/Ppc`. -/
noncomputable def gopal_cg (P T Ppc Tpc z : ℝ) : Option ℝ :=
  let Ppr := P / Ppc
  let Tpr := T / Tpc
  let dZr : Option ℝ :=
    if 0.2 ≤ Ppr ∧ Ppr ≤ 1.2 then
      if 1.05 ≤ Tpr ∧ Tpr ≤ 1.2 then some ((1.6643 * Tpr) - 2.2114)
      else if 1.2 ≤ Tpr ∧ Tpr ≤ 1.4 then some ((0.0522 * Tpr) - 0.8511)
      else if 1.4 ≤ Tpr ∧ Tpr ≤ 2.0 then some ((0.1391 * Tpr) - 0.2988)
      else if 2.0 ≤ Tpr ∧ Tpr ≤ 3.0 then some ((0.0295 * Tpr) - 0.0825)
      else none
    else if 1.2 ≤ Ppr ∧ Ppr ≤ 2.8 then
      if 1.05 ≤ Tpr ∧ Tpr ≤ 1.2 then some (-(1.3570 * Tpr) + 1.4942)
      else if 1.2 ≤ Tpr ∧ Tpr ≤ 1.4 then some ((0.1717 * Tpr) - 0.3232)
      else if 1.4 ≤ Tpr ∧ Tpr ≤ 2.0 then some ((0.0984 * Tpr) - 0.2053)
      else if 2.0 ≤ Tpr ∧ Tpr ≤ 3.0 then some ((0.0211 * Tpr) - 0.0527)
      else none
    else if 2.8 ≤ Ppr ∧ Ppr ≤ 5.4 then
      if 1.05 ≤ Tpr ∧ Tpr ≤ 1.2 then some (-(0.3278 * Tpr) + 0.4752)
      else if 1.2 ≤ Tpr ∧ Tpr ≤ 1.4 then some (-(0.2521 * Tpr) + 0.3871)
      else if 1.4 ≤ Tpr ∧ Tpr ≤ 2.0 then some (-(0.0284 * Tpr) + 0.0625)
      else if 2.0 ≤ Tpr ∧ Tpr ≤ 3.0 then some (-(0.0041 * Tpr) + 0.0039)
      else none
    else if 5.4 ≤ Ppr ∧ Ppr ≤ 15 then
      if 1.05 ≤ Tpr ∧ Tpr ≤ 3.0 then some ((0.711 + (3.66 * Tpr)) ^ (-1.4667 : ℝ))
      else none
    else none
  dZr.map fun d => ((1 / Ppr) - ((1 / z) * d)) / Ppc

/-! ### Newton-Raphson loops

All three iterative z-factor solvers run the same while-loop shape: at
each pass compute the residual `F` at the current iterate, perform the
Newton update, and exit returning the updated iterate as soon as
`|F| < tol`, or after the iteration budget is exhausted. -/

/-- Generic Newton-Raphson loop as the specification describes it:
iterate `y - F y / dF y`, stop once the residual at the pre-update
iterate is below `tol` in absolute value (using the updated iterate),
or when the fuel runs out; never fails. -/
noncomputable def newtonLoop (F dF : ℝ → ℝ) (tol : ℝ) : ℕ → ℝ → ℝ
  | 0, y => y
  | n + 1, y =>
    let r := F y
    let y2 := y - r / dF y
    if |r| < tol then y2 else newtonLoop F dF tol n y2

/-- Hall-Yarborough residual,
src/petpropy/gas/gas_compressibility_factor.py line 160. -/
noncomputable def hyF (A B C D Ppr y : ℝ) : ℝ :=
  -A * Ppr + ((y + y ^ 2 + y ^ 3 - y ^ 4) / ((1 - y) ^ 3)) - B * y ^ 2 + C * y ^ D

/-- Hall-Yarborough residual derivative,
src/petpropy/gas/gas_compressibility_factor.py line 161. -/
noncomputable def hydF (B C D y : ℝ) : ℝ :=
  ((1 + 4 * y + 4 * y ^ 2 - 4 * y ^ 3 + y ^ 4) / ((1 - y) ^ 4)) - 2 * B * y + C * D * y ^ (D - 1)

/-- Hall-Yarborough while-loop,
src/petpropy/gas/gas_compressibility_factor.py lines 153-170, as a
fuel-indexed recursion (fuel 1000 at entry). -/
noncomputable def hyLoop (A B C D Ppr : ℝ) : ℕ → ℝ → ℝ
  | 0, y => y
  | n + 1, y =>
    let F1 := hyF A B C D Ppr y
    let y2 := y - F1 / hydF B C D y
    if |F1| < 0.00001 then y2 else hyLoop A B C D Ppr n y2

/-- Hall-Yarborough z-factor solver,
src/petpropy/gas/gas_compressibility_factor.py lines 129-174.  Note the
residual coefficient `A` uses the constant 0.06123 while the final
recovery of z from y uses 0.06125, exactly as in the source. -/
noncomputable def hall_yarborough (P T Ppc Tpc : ℝ) : ℝ :=
  let Ppr := P / Ppc
  let Tpr := T / Tpc
  let t := 1 / Tpr
  let A := 0.06123 * t * exp (-1.2 * ((1 - t) ^ 2))
  let B := 14.76 * t - 9.76 * t ^ 2 + 4.85 * t ^ 3
  let C := 90.7 * t - 242.2 * t ^ 2 + 42.4 * t ^ 3
  let D := 2.18 + 2.82 * t
  let y1 := hyLoop A B C D Ppr 1000 0.00001
  (0.06125 * Ppr * t * exp (-1.2 * ((1 - t) ^ 2))) / y1

/-- The return value the claim asserts for the Hall-Yarborough solver:
identical to `hall_yarborough` except that the recovery of z from the
final iterate reuses the residual coefficient constant 0.06123. -/
noncomputable def hall_yarborough_claimed (P T Ppc Tpc : ℝ) : ℝ :=
  let Ppr := P / Ppc
  let Tpr := T / Tpc
  let t := 1 / Tpr
  let A := 0.06123 * t * exp (-1.2 * ((1 - t) ^ 2))
  let B := 14.76 * t - 9.76 * t ^ 2 + 4.85 * t ^ 3
  let C := 90.7 * t - 242.2 * t ^ 2 + 42.4 * t ^ 3
  let D := 2.18 + 2.82 * t
  let y1 := hyLoop A B C D Ppr 1000 0.00001
  (0.06123 * Ppr * t * exp (-1.2 * ((1 - t) ^ 2))) / y1

/-- The Hall-Yarborough solver as the (amended) specification describes
it: Newton-Raphson through the generic loop from the fixed initial
guess 1e-5 with tolerance 1e-5 and at most 1000 iterations, with
`t = Tpc/T`, and z recovered as `0.06125 · Ppr · t · exp(-1.2(1-t)²)`
divided by the final iterate. -/
noncomputable def hall_yarborough_spec (P T Ppc Tpc : ℝ) : ℝ :=
  let Ppr := P / Ppc
  let t := Tpc / T
  let A := 0.06123 * t * exp (-1.2 * ((1 - t) ^ 2))
  let B := 14.76 * t - 9.76 * t ^ 2 + 4.85 * t ^ 3
  let C := 90.7 * t - 242.2 * t ^ 2 + 42.4 * t ^ 3
  let D := 2.18 + 2.82 * t
  (0.06125 * Ppr * t * exp (-1.2 * ((1 - t) ^ 2))) /
    newtonLoop (hyF A B C D Ppr) (hydF B C D) 0.00001 1000 0.00001

/-- Reduced density of the Dranchuk solvers,
src/petpropy/gas/gas_compressibility_factor.py lines 262 and 324. -/
noncomputable def drRho (Ppr Tpr z : ℝ) : ℝ := 0.27 * (Ppr / (z * Tpr))

/-- Dranchuk-Abou-Kassem direct equation of state in the reduced
density, src/petpropy/gas/gas_compressibility_factor.py lines 283-286
(and the parenthesised term of the residual, lines 264-267). -/
noncomputable def dakEOS (Tpr dr : ℝ) : ℝ :=
  let A1 := (0.3265 : ℝ)
  let A2 := (-1.07 : ℝ)
  let A3 := (-0.5339 : ℝ)
  let A4 := (0.01569 : ℝ)
  let A5 := (-0.05165 : ℝ)
  let A6 := (0.5475 : ℝ)
  let A7 := (-0.7361 : ℝ)
  let A8 := (0.1844 : ℝ)
  let A9 := (0.1056 : ℝ)
  let A10 := (0.6134 : ℝ)
  let A11 := (0.721 : ℝ)
  1 + (A1 + (A2 / Tpr) + (A3 / Tpr ^ 3) + (A4 / Tpr ^ 4) + (A5 / Tpr ^ 5)) * dr +
    (A6 + (A7 / Tpr) + (A8 / Tpr ^ 2)) * dr ^ 2 -
    A9 * ((A7 / Tpr) + (A8 / Tpr ^ 2)) * dr ^ 5 +
    A10 * (1 + A11 * dr ^ 2) * (dr ^ 2 / Tpr ^ 3) * exp (-A11 * dr ^ 2)

/-- Dranchuk-Abou-Kassem Newton residual `F(z) = z - EOS(dr(z))`,
src/petpropy/gas/gas_compressibility_factor.py lines 264-267. -/
noncomputable def dakF (Ppr Tpr z : ℝ) : ℝ := z - dakEOS Tpr (drRho Ppr Tpr z)

/-- Dranchuk-Abou-Kassem residual derivative,
src/petpropy/gas/gas_compressibility_factor.py lines 269-272. -/
noncomputable def dakdF (Ppr Tpr z : ℝ) : ℝ :=
  let A1 := (0.3265 : ℝ)
  let A2 := (-1.07 : ℝ)
  let A3 := (-0.5339 : ℝ)
  let A4 := (0.01569 : ℝ)
  let A5 := (-0.05165 : ℝ)
  let A6 := (0.5475 : ℝ)
  let A7 := (-0.7361 : ℝ)
  let A8 := (0.1844 : ℝ)
  let A9 := (0.1056 : ℝ)
  let A10 := (0.6134 : ℝ)
  let A11 := (0.721 : ℝ)
  let dr := drRho Ppr Tpr z
  1 + (A1 + (A2 / Tpr) + (A3 / Tpr ^ 3) + (A4 / Tpr ^ 4) + (A5 / Tpr ^ 5)) * (dr / z) +
    2 * (A6 + (A7 / Tpr) + (A8 / Tpr ^ 2)) * (dr ^ 2 / z) -
    5 * A9 * ((A7 / Tpr) + (A8 / Tpr ^ 2)) * (dr ^ 5 / z) +
    ((2 * A10 * dr ^ 2) / (z * Tpr ^ 3)) * (1 + (A11 * dr ^ 2) - (A11 * dr ^ 2) ^ 2) *
      exp (-A11 * dr ^ 2)

/-- Dranchuk-Abou-Kassem while-loop,
src/petpropy/gas/gas_compressibility_factor.py lines 255-279. -/
noncomputable def dakLoop (Ppr Tpr : ℝ) : ℕ → ℝ → ℝ
  | 0, z => z
  | n + 1, z =>
    let F := dakF Ppr Tpr z
    let z2 := z - F / dakdF Ppr Tpr z
    if |F| < 0.000001 then z2 else dakLoop Ppr Tpr n z2

/-- Dranchuk-Abou-Kassem z-factor solver,
src/petpropy/gas/gas_compressibility_factor.py lines 225-288: after the
Newton loop the reduced density is recomputed from the final iterate
and z is re-evaluated once more through the direct EOS formula. -/
noncomputable def dranchuk_abou_kassem (P T Ppc Tpc : ℝ) : ℝ :=
  let Ppr := P / Ppc
  let Tpr := T / Tpc
  let z := dakLoop Ppr Tpr 1000 0.5
  dakEOS Tpr (drRho Ppr Tpr z)

/-- Dranchuk-Purvis-Robinson direct equation of state,
src/petpropy/gas/gas_compressibility_factor.py lines 343-345 (and the
parenthesised term of the residual, lines 326-328). -/
noncomputable def dprEOS (Tpr dr : ℝ) : ℝ :=
  let A1 := (0.31506237 : ℝ)
  let A2 := (-1.0467099 : ℝ)
  let A3 := (-0.57832729 : ℝ)
  let A4 := (0.53530771 : ℝ)
  let A5 := (-0.61232032 : ℝ)
  let A6 := (-0.10488813 : ℝ)
  let A7 := (0.68157001 : ℝ)
  let A8 := (0.68446549 : ℝ)
  1 + (A1 + (A2 / Tpr) + (A3 / Tpr ^ 3)) * dr +
    (A4 + (A5 / Tpr)) * dr ^ 2 + ((A5 * A6 * dr ^ 5) / Tpr) +
    A7 * (1 + (A8 * dr ^ 2)) * (dr ^ 2 / Tpr ^ 3) * exp (-A8 * dr ^ 2)

/-- Dranchuk-Purvis-Robinson Newton residual,
src/petpropy/gas/gas_compressibility_factor.py lines 326-328. -/
noncomputable def dprF (Ppr Tpr z : ℝ) : ℝ := z - dprEOS Tpr (drRho Ppr Tpr z)

/-- Dranchuk-Purvis-Robinson residual derivative,
src/petpropy/gas/gas_compressibility_factor.py lines 330-332. -/
noncomputable def dprdF (Ppr Tpr z : ℝ) : ℝ :=
  let A1 := (0.31506237 : ℝ)
  let A2 := (-1.0467099 : ℝ)
  let A3 := (-0.57832729 : ℝ)
  let A4 := (0.53530771 : ℝ)
  let A5 := (-0.61232032 : ℝ)
  let A6 := (-0.10488813 : ℝ)
  let A7 := (0.68157001 : ℝ)
  let A8 := (0.68446549 : ℝ)
  let dr := drRho Ppr Tpr z
  1 + (A1 + (A2 / Tpr) + (A3 / Tpr ^ 3)) * (dr / z) +
    2 * (A4 + (A5 / Tpr)) * (dr ^ 2 / z) + ((5 * A5 * A6 * dr ^ 5) / (z * Tpr)) +
    ((2 * A7 * dr ^ 2) / (z * Tpr ^ 3)) * (1 + (A8 * dr ^ 2) - (A8 * dr ^ 2) ^ 2) *
      exp (-A8 * dr ^ 2)

/-- Dranchuk-Purvis-Robinson while-loop,
src/petpropy/gas/gas_compressibility_factor.py lines 317-339. -/
noncomputable def dprLoop (Ppr Tpr : ℝ) : ℕ → ℝ → ℝ
  | 0, z => z
  | n + 1, z =>
    let F := dprF Ppr Tpr z
    let z2 := z - F / dprdF Ppr Tpr z
    if |F| < 0.000001 then z2 else dprLoop Ppr Tpr n z2

/-- Dranchuk-Purvis-Robinson z-factor solver,
src/petpropy/gas/gas_compressibility_factor.py lines 290-347. -/
noncomputable def dranchuk_purvis_robinson (P T Ppc Tpc : ℝ) : ℝ :=
  let Ppr := P / Ppc
  let Tpr := T / Tpc
  let z := dprLoop Ppr Tpr 1000 0.5
  dprEOS Tpr (drRho Ppr Tpr z)

end Petpropy.Zfac

namespace Petpropy.BubblePressure

/-- Vazquez-Beggs bubble-point pressure,
src/petpropy/oil/bubble_pressure.py lines 109-156.  The keyword
parameters (separator pressure/temperature and impurity fractions,
all defaulting to 0) are passed explicitly.  Note the source shifts the
temperature by 460 before using it in the exponential, and shifts it by
460 once more inside the impurity-correction branch. -/
noncomputable def vazquez_beggs (R_sb gamma_gas T gamma_api P_sp T_sp y_N2 y_CO2 y_H2S : ℝ) : ℝ :=
  let C1 : ℝ := if gamma_api ≤ 30 then 0.0362 else 0.0178
  let C2 : ℝ := if gamma_api ≤ 30 then 1.0937 else 1.1870
  let C3 : ℝ := if gamma_api ≤ 30 then 25.724 else 23.931
  let Pb : ℝ :=
    if P_sp ≠ 0 ∧ T_sp ≠ 0 then
      let T1 := T - 460
      let Tsp1 := T_sp - 460
      let gamma_gc := gamma_gas * (1 + (5.912e-5 * gamma_api * Tsp1 * logb 10 (P_sp / 114.7)))
      (R_sb / (C1 * gamma_gc * exp ((C3 * gamma_api) / T1))) ^ (1 / C2)
    else
      let T1 := T - 460
      (R_sb / (C1 * gamma_gas * exp ((C3 * gamma_api) / T1))) ^ (1 / C2)
  if y_N2 ≠ 0 ∨ y_CO2 ≠ 0 ∨ y_H2S ≠ 0 then
    let T2 := T - 460 - 460
    let c_N2 := 1 + (((((-2.65e-4 * gamma_api) + (5.5e-3)) * T2) + ((0.0931 * gamma_api) - (0.8295))) * y_N2) +
      ((((1.954e-11 * (gamma_api ^ (4.699 : ℝ))) * T2) + ((0.027 * gamma_api) - (2.366))) * (y_N2 ^ 2))
    let c_CO2 := 1 - (693.8 * y_CO2 * (T2 ^ (-1.553 : ℝ)))
    let c_H2S := 1 - ((0.9035 + (0.0015 * gamma_api)) * y_H2S) + ((0.019 * (45 - gamma_api)) * (y_H2S ^ 2))
    roundTo 5 (Pb * c_N2 * c_CO2 * c_H2S)
  else roundTo 5 Pb

/-- Standing bubble-point pressure,
src/petpropy/oil/bubble_pressure.py lines 32-61. -/
noncomputable def standing (R_sb gamma_gas T gamma_api y_N2 y_CO2 y_H2S : ℝ) : ℝ :=
  let F := (R_sb / gamma_gas) ^ (0.83 : ℝ) * ((10 : ℝ) ^ (0.00091 * (T - 460) - 0.0125 * gamma_api))
  let Pb := 18.2 * (F - 1.4)
  if y_N2 ≠ 0 ∨ y_CO2 ≠ 0 ∨ y_H2S ≠ 0 then
    let T2 := T - 460
    let c_N2 := 1 + (((((-2.65e-4 * gamma_api) + (5.5e-3)) * T2) + ((0.0931 * gamma_api) - (0.8295))) * y_N2) +
      ((((1.954e-11 * (gamma_api ^ (4.699 : ℝ))) * T2) + ((0.027 * gamma_api) - (2.366))) * (y_N2 ^ 2))
    let c_CO2 := 1 - (693.8 * y_CO2 * (T2 ^ (-1.553 : ℝ)))
    let c_H2S := 1 - ((0.9035 + (0.0015 * gamma_api)) * y_H2S) + ((0.019 * (45 - gamma_api)) * (y_H2S ^ 2))
    roundTo 5 (Pb * c_N2 * c_CO2 * c_H2S)
  else roundTo 5 Pb

end Petpropy.BubblePressure

namespace Petpropy.SolGOR

/-! ### Solution gas-oil ratio correlations
(src/petpropy/oil/solution_gas_oil_ratio.py)

Every function first clamps the pressure to the bubble point: the
branch taken for `P >= Pb` re-assigns `P = Pb` and then evaluates the
same closed-form expression as the `P < Pb` branch. -/

/-- Standing solution gas-oil ratio,
src/petpropy/oil/solution_gas_oil_ratio.py lines 38-61. -/
noncomputable def standing (P T gamma_gas gamma_api Pb : ℝ) : ℝ :=
  if Pb ≤ P then
    gamma_gas * ((((Pb / 18.2) + 1.4) * ((10 : ℝ) ^ ((0.0125 * gamma_api) - (0.00091 * (T - 460))))) ^ (1.2048 : ℝ))
  else
    gamma_gas * ((((P / 18.2) + 1.4) * ((10 : ℝ) ^ ((0.0125 * gamma_api) - (0.00091 * (T - 460))))) ^ (1.2048 : ℝ))

/-- Lasater solution gas-oil ratio,
src/petpropy/oil/solution_gas_oil_ratio.py lines 63-112 (in the
`P < Pb` branch the source re-assigns `Pb = P`, so the branch evaluates
the same expressions at `P`). -/
noncomputable def lasater (P T gamma_gas gamma_api Pb : ℝ) : ℝ :=
  let gamma_oil := 141.5 / (gamma_api + 131.5)
  if Pb ≤ P then
    let y_gas : ℝ :=
      if (Pb * gamma_gas) / T < 3.29 then 0.359 * log (((1.473 * Pb * gamma_gas) / T) + 0.476)
      else (((0.121 * Pb * gamma_gas) / T) - 0.236) ^ (0.281 : ℝ)
    let m_oil : ℝ := if gamma_api ≤ 40 then 630 - (10 * gamma_api) else 73110 / (gamma_api ^ (1.562 : ℝ))
    (132755 * gamma_oil * y_gas) / (m_oil * (1 - y_gas))
  else
    let y_gas : ℝ :=
      if (P * gamma_gas) / T < 3.29 then 0.359 * log (((1.473 * P * gamma_gas) / T) + 0.476)
      else (((0.121 * P * gamma_gas) / T) - 0.236) ^ (0.281 : ℝ)
    let m_oil : ℝ := if gamma_api ≤ 40 then 630 - (10 * gamma_api) else 73110 / (gamma_api ^ (1.562 : ℝ))
    (132755 * gamma_oil * y_gas) / (m_oil * (1 - y_gas))

/-- Vazquez-Beggs solution gas-oil ratio,
src/petpropy/oil/solution_gas_oil_ratio.py lines 114-158.  The
exponential divides by the temperature argument itself (no 460 shift),
unlike the bubble-pressure sibling. -/
noncomputable def vazquez (P T gamma_gas gamma_api Pb P_sp T_sp : ℝ) : ℝ :=
  let C1 : ℝ := if gamma_api ≤ 30 then 0.0362 else 0.0178
  let C2 : ℝ := if gamma_api ≤ 30 then 1.0937 else 1.1870
  let C3 : ℝ := if gamma_api ≤ 30 then 25.724 else 23.931
  if Pb ≤ P then
    if P_sp ≠ 0 ∧ T_sp ≠ 0 then
      let gamma_gc := gamma_gas * (1 + (5.912e-5 * gamma_api * T_sp * logb 10 (P_sp / 114.7)))
      C1 * gamma_gc * (Pb ^ C2) * exp ((C3 * gamma_api) / T)
    else
      C1 * gamma_gas * (Pb ^ C2) * exp ((C3 * gamma_api) / T)
  else
    if P_sp ≠ 0 ∧ T_sp ≠ 0 then
      let gamma_gc := gamma_gas * (1 + (5.912e-5 * gamma_api * T_sp * logb 10 (P_sp / 114.7)))
      C1 * gamma_gc * (P ^ C2) * exp ((C3 * gamma_api) / T)
    else
      C1 * gamma_gas * (P ^ C2) * exp ((C3 * gamma_api) / T)

/-- Glaso solution gas-oil ratio,
src/petpropy/oil/solution_gas_oil_ratio.py lines 160-187. -/
noncomputable def glaso (P T gamma_gas gamma_api Pb : ℝ) : ℝ :=
  if Pb ≤ P then
    let F := (10 : ℝ) ^ (2.8869 - ((14.1811 - (3.3093 * logb 10 Pb)) ^ (0.5 : ℝ)))
    gamma_gas * ((F * ((gamma_api ^ (0.989 : ℝ)) / ((T - 460) ^ (0.172 : ℝ)))) ^ (1.2255 : ℝ))
  else
    let F := (10 : ℝ) ^ (2.8869 - ((14.1811 - (3.3093 * logb 10 P)) ^ (0.5 : ℝ)))
    gamma_gas * ((F * ((gamma_api ^ (0.989 : ℝ)) / ((T - 460) ^ (0.172 : ℝ)))) ^ (1.2255 : ℝ))

/-- TOTAL solution gas-oil ratio formula,
src/petpropy/oil/solution_gas_oil_ratio.py lines 189-228, abstracted
over the selected coefficients.  The coefficient table covers API
gravity up to 45 only; beyond it the source raises an unbound-local
error, modelled by `none` in `total` below. -/
noncomputable def totalRs (P T gamma_gas gamma_api Pb C1 C2 C3 C4 : ℝ) : ℝ :=
  if Pb ≤ P then
    gamma_gas * (((Pb / C1) * ((10 : ℝ) ^ ((C2 * gamma_api) - (C3 * (T - 460))))) ^ C4)
  else
    gamma_gas * (((P / C1) * ((10 : ℝ) ^ ((C2 * gamma_api) - (C3 * (T - 460))))) ^ C4)

/-- Coefficient dispatch of the TOTAL solution gas-oil ratio (the three
API-gravity rows of the table feed the single formula `totalRs`). -/
noncomputable def total (P T gamma_gas gamma_api Pb : ℝ) : Option ℝ :=
  if gamma_api ≤ 10 then some (totalRs P T gamma_gas gamma_api Pb 12.2651 0.030405 0 0.9669)
  else if gamma_api ≤ 35 then some (totalRs P T gamma_gas gamma_api Pb 15.0057 0.0152 4.484e-4 1.0950)
  else if gamma_api ≤ 45 then some (totalRs P T gamma_gas gamma_api Pb 112.925 0.0248 (-1.469e-3) 1.1290)
  else none

/-- Al-Marhoun solution gas-oil ratio,
src/petpropy/oil/solution_gas_oil_ratio.py lines 230-255. -/
noncomputable def almarhoun (P T gamma_gas gamma_api Pb : ℝ) : ℝ :=
  let gamma_oil := 141.5 / (gamma_api + 131.5)
  if Pb ≤ P then
    (185.84321 * Pb * (gamma_gas ^ (1.87784 : ℝ)) * (gamma_oil ^ (-3.1437 : ℝ) * (T ^ (-1.32657 : ℝ)))) ^ (1.3984 : ℝ)
  else
    (185.84321 * P * (gamma_gas ^ (1.87784 : ℝ)) * (gamma_oil ^ (-3.1437 : ℝ) * (T ^ (-1.32657 : ℝ)))) ^ (1.3984 : ℝ)

/-- Dokla-Osman solution gas-oil ratio,
src/petpropy/oil/solution_gas_oil_ratio.py lines 257-282. -/
noncomputable def dokla_osman (P T gamma_gas gamma_api Pb : ℝ) : ℝ :=
  let gamma_oil := 141.5 / (gamma_api + 131.5)
  if Pb ≤ P then
    (0.11956e-3 * Pb * (gamma_gas ^ (1.01049 : ℝ)) * (gamma_oil ^ (-0.107991 : ℝ)) * (T ^ (0.952584 : ℝ))) ^ (1.3811 : ℝ)
  else
    (0.11956e-3 * P * (gamma_gas ^ (1.01049 : ℝ)) * (gamma_oil ^ (-0.107991 : ℝ)) * (T ^ (0.952584 : ℝ))) ^ (1.3811 : ℝ)

/-- Petrosky-Farshad solution gas-oil ratio,
src/petpropy/oil/solution_gas_oil_ratio.py lines 284-307. -/
noncomputable def petrosky_farshad (P T gamma_gas gamma_api Pb : ℝ) : ℝ :=
  if Pb ≤ P then
    ((gamma_gas ^ (0.8439 : ℝ)) * ((Pb / 112.727) + 12.34) *
      ((10 : ℝ) ^ ((7.916e-4 * (gamma_api ^ (1.5410 : ℝ))) - (4.561e-5 * ((T - 460) ^ (1.3911 : ℝ)))))) ^ (1.73184 : ℝ)
  else
    ((gamma_gas ^ (0.8439 : ℝ)) * ((P / 112.727) + 12.34) *
      ((10 : ℝ) ^ ((7.916e-4 * (gamma_api ^ (1.5410 : ℝ))) - (4.561e-5 * ((T - 460) ^ (1.3911 : ℝ)))))) ^ (1.73184 : ℝ)

/-- Kartoatmodjo-Schmidt solution gas-oil ratio,
src/petpropy/oil/solution_gas_oil_ratio.py lines 309-355. -/
noncomputable def kartoatmodjo_schmidt (P T gamma_gas gamma_api Pb P_sp T_sp : ℝ) : ℝ :=
  let C1 : ℝ := if gamma_api ≤ 30 then 0.05958 else 0.03150
  let C2 : ℝ := if gamma_api ≤ 30 then 0.7972 else 0.7587
  let C3 : ℝ := if gamma_api ≤ 30 then 13.1405 else 11.2895
  let C4 : ℝ := if gamma_api ≤ 30 then 0.9986 else 0.9143
  if Pb ≤ P then
    if P_sp ≠ 0 ∧ T_sp ≠ 0 then
      let gamma_gc := gamma_gas * (1 + (0.1595 * (gamma_api ^ (0.4078 : ℝ)) * (T_sp ^ (-0.2466 : ℝ)) * logb 10 (P_sp / 114.7)))
      C1 * (gamma_gc ^ C2) * (Pb ^ (1 / C4)) * ((10 : ℝ) ^ ((C3 * gamma_api) / T))
    else
      C1 * (gamma_gas ^ C2) * (Pb ^ (1 / C4)) * ((10 : ℝ) ^ ((C3 * gamma_api) / T))
  else
    if P_sp ≠ 0 ∧ T_sp ≠ 0 then
      let gamma_gc := gamma_gas * (1 + (0.1595 * (gamma_api ^ (0.4078 : ℝ)) * (T_sp ^ (-0.2466 : ℝ)) * logb 10 (P_sp / 114.7)))
      C1 * (gamma_gc ^ C2) * (P ^ (1 / C4)) * ((10 : ℝ) ^ ((C3 * gamma_api) / T))
    else
      C1 * (gamma_gas ^ C2) * (P ^ (1 / C4)) * ((10 : ℝ) ^ ((C3 * gamma_api) / T))

end Petpropy.SolGOR

namespace Petpropy.OilBo

/-- Standing oil volumetric factor,
src/petpropy/oil/oil_volumetric_factor.py lines 38-64: the bubble-point
value `B_ob`, corrected by `exp(co*(Pb-P))` only when the pressure,
bubble pressure and compressibility keywords are all non-zero. -/
noncomputable def standing (T R_sb gamma_api gamma_gas P Pb co : ℝ) : ℝ :=
  let gamma_oil := 141.5 / (gamma_api + 131.5)
  let F := (R_sb * ((gamma_gas / gamma_oil) ^ (0.5 : ℝ))) + (1.25 * (T - 460))
  let B_ob := 0.9759 + (12e-5 * (F ^ (1.2 : ℝ)))
  if P ≠ 0 ∧ Pb ≠ 0 ∧ co ≠ 0 then B_ob * exp (co * (Pb - P)) else B_ob

/-- Pressure correction of the oil volumetric factor,
src/petpropy/oil/oil_volumetric_factor.py lines 286-305. -/
noncomputable def factor_oil (P Pb B_ob co : ℝ) : ℝ := B_ob * exp (co * (Pb - P))

end Petpropy.OilBo

namespace Petpropy

/-- One public function of the catalog: its module, its name, whether
the source applies the broadcasting wrapper to it (a literal
transcription of the presence of the vectorize decorator on its
definition), and the number of decimal digits the function rounds its
result to (`none` when it returns the raw value). -/
structure CatalogFn where
  modName : String
  fnName : String
  decorated : Bool
  roundDigits : Option ℕ
deriving DecidableEq

/-- Catalog entries of the gas package. -/
def catalogGas : List CatalogFn := [
  ⟨"gas.specific_gravity_gas", "gamma_gas", false, none⟩,
  ⟨"gas.gas_viscosity", "lee_gonzalez_eakin", true, some 7⟩,
  ⟨"gas.gas_volumetric_factor", "B_g", true, none⟩,
  ⟨"gas.gas_volumetric_factor", "E_g", true, none⟩,
  ⟨"gas.pseudocritical_properties_gas", "mathews_roland_correlation_c7", false, some 5⟩,
  ⟨"gas.pseudocritical_properties_gas", "sutton", false, none⟩,
  ⟨"gas.pseudocritical_properties_gas", "kay", false, none⟩,
  ⟨"gas.pseudocritical_properties_gas", "kay_df", false, none⟩,
  ⟨"gas.pseudocritical_properties_gas", "stewart", false, some 5⟩,
  ⟨"gas.pseudocritical_properties_gas", "stewart_df", false, some 5⟩,
  ⟨"gas.pseudocritical_properties_gas", "brown_katz", false, some 5⟩,
  ⟨"gas.pseudocritical_properties_gas", "brown_katz_grv", false, none⟩,
  ⟨"gas.pseudocritical_properties_gas", "brown_katz_df", false, some 5⟩,
  ⟨"gas.gas_density", "rho_gas", true, some 7⟩,
  ⟨"gas.gas_compressibility", "papay", true, none⟩,
  ⟨"gas.gas_compressibility", "brill_beggs", true, none⟩,
  ⟨"gas.gas_compressibility", "gopal", true, none⟩,
  ⟨"gas.weight_molecular_gas", "gas_weight_molecular", false, none⟩,
  ⟨"gas.weight_molecular_gas", "gas_weight_molecular_df", false, some 5⟩,
  ⟨"gas.gas_compressibility_factor", "wichert_aziz_correction", false, none⟩,
  ⟨"gas.gas_compressibility_factor", "wichert_aziz", false, none⟩,
  ⟨"gas.gas_compressibility_factor", "papay", true, none⟩,
  ⟨"gas.gas_compressibility_factor", "brill_beggs", true, none⟩,
  ⟨"gas.gas_compressibility_factor", "hall_yarborough", true, none⟩,
  ⟨"gas.gas_compressibility_factor", "gopal", true, none⟩,
  ⟨"gas.gas_compressibility_factor", "dranchuk_abou_kassem", true, none⟩,
  ⟨"gas.gas_compressibility_factor", "dranchuk_purvis_robinson", true, none⟩]

/-- Catalog entries of the oil package. -/
def catalogOil : List CatalogFn := [
  ⟨"oil.oil_volumetric_factor", "standing", true, none⟩,
  ⟨"oil.oil_volumetric_factor", "vazquez_beggs", true, none⟩,
  ⟨"oil.oil_volumetric_factor", "glaso", true, none⟩,
  ⟨"oil.oil_volumetric_factor", "total", true, none⟩,
  ⟨"oil.oil_volumetric_factor", "almarhoun", true, none⟩,
  ⟨"oil.oil_volumetric_factor", "dokla_osman", true, none⟩,
  ⟨"oil.oil_volumetric_factor", "petrosky_farshad", true, none⟩,
  ⟨"oil.oil_volumetric_factor", "kartoatmodjo_schmidt", true, none⟩,
  ⟨"oil.oil_volumetric_factor", "factor_oil", true, none⟩,
  ⟨"oil.oil_compressibility", "vazquez_beggs", true, none⟩,
  ⟨"oil.oil_compressibility", "petrosky_farshad", true, none⟩,
  ⟨"oil.oil_compressibility", "kartoatmodjo_schmidt", true, none⟩,
  ⟨"oil.oil_compressibility", "maccain_rollins_villena", true, none⟩,
  ⟨"oil.oil_density", "vazquez_beggs", true, some 5⟩,
  ⟨"oil.oil_density", "petrosky_farshad", true, some 5⟩,
  ⟨"oil.oil_density", "ahmed", true, some 5⟩,
  ⟨"oil.oil_density", "standing", true, some 5⟩,
  ⟨"oil.oil_density", "rho_o_basic", true, some 5⟩,
  ⟨"oil.solution_gas_oil_ratio", "standing", true, none⟩,
  ⟨"oil.solution_gas_oil_ratio", "lasater", true, none⟩,
  ⟨"oil.solution_gas_oil_ratio", "vazquez", true, none⟩,
  ⟨"oil.solution_gas_oil_ratio", "glaso", true, none⟩,
  ⟨"oil.solution_gas_oil_ratio", "total", true, none⟩,
  ⟨"oil.solution_gas_oil_ratio", "almarhoun", true, none⟩,
  ⟨"oil.solution_gas_oil_ratio", "dokla_osman", true, none⟩,
  ⟨"oil.solution_gas_oil_ratio", "petrosky_farshad", true, none⟩,
  ⟨"oil.solution_gas_oil_ratio", "kartoatmodjo_schmidt", true, none⟩,
  ⟨"oil.gas_oil_interfacial_tension", "baker_swedloff", true, none⟩,
  ⟨"oil.specific_gravity_oil", "gamma_oil", false, none⟩,
  ⟨"oil.specific_gravity_oil", "api", false, none⟩,
  ⟨"oil.bubble_pressure", "standing", false, some 5⟩,
  ⟨"oil.bubble_pressure", "lasater", false, some 5⟩,
  ⟨"oil.bubble_pressure", "vazquez_beggs", false, some 5⟩,
  ⟨"oil.bubble_pressure", "glaso", false, some 5⟩,
  ⟨"oil.bubble_pressure", "total", false, some 5⟩,
  ⟨"oil.bubble_pressure", "almarhoun", false, some 5⟩,
  ⟨"oil.bubble_pressure", "dokla_osman", false, some 5⟩,
  ⟨"oil.bubble_pressure", "petrosky_farshad", false, some 5⟩,
  ⟨"oil.bubble_pressure", "kartoatmodjo_schmidt", false, some 5⟩,
  ⟨"oil.oil_viscosity", "beal_muod", true, some 5⟩,
  ⟨"oil.oil_viscosity", "beggs_robinson_muod", true, some 5⟩,
  ⟨"oil.oil_viscosity", "glaso_muod", true, some 5⟩,
  ⟨"oil.oil_viscosity", "egbogad_muod", true, some 5⟩,
  ⟨"oil.oil_viscosity", "kartoatmodjo_schmidt_muod", true, some 5⟩,
  ⟨"oil.oil_viscosity", "chew_connally_muob", true, some 5⟩,
  ⟨"oil.oil_viscosity", "beggs_robinson_muob", true, some 5⟩,
  ⟨"oil.oil_viscosity", "kartoatmodjo_schmidt_muob", true, some 5⟩,
  ⟨"oil.oil_viscosity", "beal_muo", true, some 5⟩,
  ⟨"oil.oil_viscosity", "vazquez_beggs_muo", true, some 5⟩,
  ⟨"oil.oil_viscosity", "kartoatmodjo_schmidt_muo", true, some 5⟩,
  ⟨"oil.oil_viscosity", "mu_oil", true, some 5⟩,
  ⟨"oil.total_volumetric_factor", "factor_total", true, none⟩,
  ⟨"oil.total_volumetric_factor", "glaso", true, none⟩,
  ⟨"oil.total_volumetric_factor", "almarhoun", false, none⟩]

/-- Catalog entries of the water package. -/
def catalogWater : List CatalogFn := [
  ⟨"water.gas_water_interfacial_tension", "jennings_newman", true, some 7⟩,
  ⟨"water.water_volumetric_factor", "mccain", true, none⟩,
  ⟨"water.water_volumetric_factor", "mccoy", true, none⟩,
  ⟨"water.water_volumetric_factor", "factor_bw", true, none⟩,
  ⟨"water.water_compressibility", "dodson_standing", true, none⟩,
  ⟨"water.water_compressibility", "osif", true, none⟩,
  ⟨"water.water_compressibility", "brill_beggs", true, none⟩,
  ⟨"water.water_viscosity", "van_wingen", true, some 6⟩,
  ⟨"water.water_viscosity", "matthews_russel", true, some 6⟩,
  ⟨"water.water_viscosity", "mccain", true, some 6⟩,
  ⟨"water.water_viscosity", "mccoy", true, some 6⟩,
  ⟨"water.solution_gas_water_ratio", "culberson_macketta", true, some 4⟩,
  ⟨"water.solution_gas_water_ratio", "mccoy", true, some 4⟩,
  ⟨"water.water_density", "rho_water_equation", true, some 5⟩,
  ⟨"water.water_density", "mccain", true, some 5⟩]

/-- The full public-function catalog of the repository, transcribed
from the source files: every top-level function of the gas, oil and
water packages, with its decoration status and rounding digits. -/
def catalog : List CatalogFn := catalogGas ++ catalogOil ++ catalogWater

/-- The modules whose functions the specification exempts from the
broadcasting wrapper or that the source in fact leaves undecorated:
the mixture-composition and pseudocritical/molecular-weight modules,
the specific-gravity helpers, plus (the amendment) the bubble-pressure
module, the Wichert-Aziz corrections and the Al-Marhoun total
volumetric factor. -/
def undecoratedNames : List (String × String) := [
  ("gas.specific_gravity_gas", "gamma_gas"),
  ("gas.pseudocritical_properties_gas", "mathews_roland_correlation_c7"),
  ("gas.pseudocritical_properties_gas", "sutton"),
  ("gas.pseudocritical_properties_gas", "kay"),
  ("gas.pseudocritical_properties_gas", "kay_df"),
  ("gas.pseudocritical_properties_gas", "stewart"),
  ("gas.pseudocritical_properties_gas", "stewart_df"),
  ("gas.pseudocritical_properties_gas", "brown_katz"),
  ("gas.pseudocritical_properties_gas", "brown_katz_grv"),
  ("gas.pseudocritical_properties_gas", "brown_katz_df"),
  ("gas.weight_molecular_gas", "gas_weight_molecular"),
  ("gas.weight_molecular_gas", "gas_weight_molecular_df"),
  ("gas.gas_compressibility_factor", "wichert_aziz_correction"),
  ("gas.gas_compressibility_factor", "wichert_aziz"),
  ("oil.specific_gravity_oil", "gamma_oil"),
  ("oil.specific_gravity_oil", "api"),
  ("oil.bubble_pressure", "standing"),
  ("oil.bubble_pressure", "lasater"),
  ("oil.bubble_pressure", "vazquez_beggs"),
  ("oil.bubble_pressure", "glaso"),
  ("oil.bubble_pressure", "total"),
  ("oil.bubble_pressure", "almarhoun"),
  ("oil.bubble_pressure", "dokla_osman"),
  ("oil.bubble_pressure", "petrosky_farshad"),
  ("oil.bubble_pressure", "kartoatmodjo_schmidt"),
  ("oil.total_volumetric_factor", "almarhoun")]

end Petpropy

open Petpropy Petpropy.Zfac Petpropy.BubblePressure Petpropy.SolGOR Petpropy.OilBo

/-- C9: for inputs with reduced pressure 0.5 and reduced temperature 1.1
(band 1 of pressure, band 1 of temperature) the Gopal z-factor function
returns exactly the literature closed form
z = Ppr*((1.6643*Tpr) - 2.2114) - 0.3647*Tpr + 1.4385. -/
theorem c9_gopal_band_one_one (P T Ppc Tpc : ℝ)
    (h1 : P / Ppc = 0.5) (h2 : T / Tpc = 1.1) :
    gopal P T Ppc Tpc =
      some ((P / Ppc) * ((1.6643 * (T / Tpc)) - 2.2114) - (0.3647 * (T / Tpc)) + 1.4385) := by
  simp only [gopal]
  rw [h1, h2]
  norm_num

/-- Witness for C9 at the concrete input P=1, T=2.2, Ppc=2, Tpc=2. -/
theorem c9_witness :
    gopal 1 2.2 2 2 =
      some (((1 : ℝ) / 2) * ((1.6643 * ((2.2 : ℝ) / 2)) - 2.2114) - (0.3647 * ((2.2 : ℝ) / 2)) + 1.4385) :=
  c9_gopal_band_one_one 1 2.2 2 2 (by norm_num) (by norm_num)

set_option maxHeartbeats 1600000 in
/-- C2: for inputs whose reduced pressure and temperature fall outside
every band of the Gopal table, both the z-factor variant and the
gas-compressibility variant of the correlation end in an error (the
unbound-local fault of the source, modelled by `none`) instead of
returning a number. -/
theorem c2_gopal_outside_bands_errors (P T Ppc Tpc z : ℝ)
    (h : ¬ gopalBands (P / Ppc) (T / Tpc)) :
    gopal P T Ppc Tpc = none ∧ gopal_cg P T Ppc Tpc z = none := by
  simp only [gopalBands, not_or] at h
  obtain ⟨n1, n2, n3, n4, n5, n6, n7, n8, n9, n10, n11, n12, n13⟩ := h
  constructor
  · simp only [gopal]
    split_ifs with h1 h2 h3 h4 h5 h6 h7 h8 h9 h10 h11 h12 h13 h14 h15 h16 h17
    · exact absurd ⟨h1, h2⟩ n1
    · exact absurd ⟨h1, h3⟩ n2
    · exact absurd ⟨h1, h4⟩ n3
    · exact absurd ⟨h1, h5⟩ n4
    · rfl
    · exact absurd ⟨h6, h7⟩ n5
    · exact absurd ⟨h6, h8⟩ n6
    · exact absurd ⟨h6, h9⟩ n7
    · exact absurd ⟨h6, h10⟩ n8
    · rfl
    · exact absurd ⟨h11, h12⟩ n9
    · exact absurd ⟨h11, h13⟩ n10
    · exact absurd ⟨h11, h14⟩ n11
    · exact absurd ⟨h11, h15⟩ n12
    · rfl
    · exact absurd ⟨h16, h17⟩ n13
    · rfl
    · rfl
  · simp only [gopal_cg]
    split_ifs with h1 h2 h3 h4 h5 h6 h7 h8 h9 h10 h11 h12 h13 h14 h15 h16 h17
    · exact absurd ⟨h1, h2⟩ n1
    · exact absurd ⟨h1, h3⟩ n2
    · exact absurd ⟨h1, h4⟩ n3
    · exact absurd ⟨h1, h5⟩ n4
    · rfl
    · exact absurd ⟨h6, h7⟩ n5
    · exact absurd ⟨h6, h8⟩ n6
    · exact absurd ⟨h6, h9⟩ n7
    · exact absurd ⟨h6, h10⟩ n8
    · rfl
    · exact absurd ⟨h11, h12⟩ n9
    · exact absurd ⟨h11, h13⟩ n10
    · exact absurd ⟨h11, h14⟩ n11
    · exact absurd ⟨h11, h15⟩ n12
    · rfl
    · exact absurd ⟨h16, h17⟩ n13
    · rfl
    · rfl

/-- Witness for C2: once at P_pr=20, T_pr=0.5 (outside every band in
both coordinates) and once at P_pr=0.5, T_pr=0.5 (inside the first
pressure band, outside every temperature band). -/
theorem c2_witness :
    (gopal 20 0.5 1 1 = none ∧ gopal_cg 20 0.5 1 1 1 = none) ∧
    (gopal 0.5 0.5 1 1 = none ∧ gopal_cg 0.5 0.5 1 1 1 = none) :=
  ⟨c2_gopal_outside_bands_errors 20 0.5 1 1 1 (by simp only [gopalBands]; norm_num),
   c2_gopal_outside_bands_errors 0.5 0.5 1 1 1 (by simp only [gopalBands]; norm_num)⟩

/-- C6: at P = Pb the pressure correction `factor_oil` is the identity
on the bubble-point volumetric factor (exp(0) = 1), and the Standing
oil-volumetric-factor correlation called with non-zero P = Pb and
non-zero co returns exactly its own uncorrected bubble-point value. -/
theorem c6_pressure_correction_identity_at_pb
    (P Pbv B_ob co T R_sb gamma_api gamma_gas : ℝ)
    (hP : P = Pbv) (h1 : P ≠ 0) (h2 : Pbv ≠ 0) (h3 : co ≠ 0) :
    factor_oil P Pbv B_ob co = B_ob ∧
    OilBo.standing T R_sb gamma_api gamma_gas P Pbv co =
      OilBo.standing T R_sb gamma_api gamma_gas 0 0 0 := by
  subst hP
  constructor
  · simp [factor_oil]
  · simp only [OilBo.standing]
    rw [if_pos ⟨h1, h2, h3⟩, if_neg (by simp : ¬((0 : ℝ) ≠ 0 ∧ (0 : ℝ) ≠ 0 ∧ (0 : ℝ) ≠ 0))]
    simp

/-- Witness for C6 at P = Pb = 2500, co = 9.61e-6, B_ob = 1.2 and the
Standing correlation inputs T=640, R_sb=675, API=31, gamma_gas=0.95. -/
theorem c6_witness :
    factor_oil 2500 2500 1.2 9.61e-6 = 1.2 ∧
    OilBo.standing 640 675 31 0.95 2500 2500 9.61e-6 =
      OilBo.standing 640 675 31 0.95 0 0 0 :=
  c6_pressure_correction_identity_at_pb 2500 2500 1.2 9.61e-6 640 675 31 0.95
    rfl (by norm_num) (by norm_num) (by norm_num)

/-- C10: every solution gas-oil ratio correlation clamps the pressure
to the bubble point before evaluating its formula, so for P ≥ Pb the
returned ratio equals the value returned at P = Pb, for all nine
correlations of solution_gas_oil_ratio.py. -/
theorem c10_rs_constant_above_bubble_point
    (P T gamma_gas gamma_api Pb P_sp T_sp : ℝ) (h : Pb ≤ P) :
    SolGOR.standing P T gamma_gas gamma_api Pb = SolGOR.standing Pb T gamma_gas gamma_api Pb ∧
    SolGOR.lasater P T gamma_gas gamma_api Pb = SolGOR.lasater Pb T gamma_gas gamma_api Pb ∧
    SolGOR.vazquez P T gamma_gas gamma_api Pb P_sp T_sp = SolGOR.vazquez Pb T gamma_gas gamma_api Pb P_sp T_sp ∧
    SolGOR.glaso P T gamma_gas gamma_api Pb = SolGOR.glaso Pb T gamma_gas gamma_api Pb ∧
    SolGOR.total P T gamma_gas gamma_api Pb = SolGOR.total Pb T gamma_gas gamma_api Pb ∧
    SolGOR.almarhoun P T gamma_gas gamma_api Pb = SolGOR.almarhoun Pb T gamma_gas gamma_api Pb ∧
    SolGOR.dokla_osman P T gamma_gas gamma_api Pb = SolGOR.dokla_osman Pb T gamma_gas gamma_api Pb ∧
    SolGOR.petrosky_farshad P T gamma_gas gamma_api Pb = SolGOR.petrosky_farshad Pb T gamma_gas gamma_api Pb ∧
    SolGOR.kartoatmodjo_schmidt P T gamma_gas gamma_api Pb P_sp T_sp = SolGOR.kartoatmodjo_schmidt Pb T gamma_gas gamma_api Pb P_sp T_sp := by
  refine ⟨?_, ?_, ?_, ?_, ?_, ?_, ?_, ?_, ?_⟩
  · simp only [SolGOR.standing]
    rw [if_pos h, if_pos le_rfl]
  · simp only [SolGOR.lasater]
    rw [if_pos h, if_pos le_rfl]
  · simp only [SolGOR.vazquez]
    rw [if_pos h, if_pos le_rfl]
  · simp only [SolGOR.glaso]
    rw [if_pos h, if_pos le_rfl]
  · simp only [SolGOR.total, SolGOR.totalRs]
    simp only [if_pos h, if_pos (le_refl Pb)]
  · simp only [SolGOR.almarhoun]
    rw [if_pos h, if_pos le_rfl]
  · simp only [SolGOR.dokla_osman]
    rw [if_pos h, if_pos le_rfl]
  · simp only [SolGOR.petrosky_farshad]
    rw [if_pos h, if_pos le_rfl]
  · simp only [SolGOR.kartoatmodjo_schmidt]
    rw [if_pos h, if_pos le_rfl]

/-- Witness for C10 at P = 4000 ≥ Pb = 2500 with T=640,
gamma_gas=0.95, API=31 and no separator data. -/
theorem c10_witness :
    SolGOR.standing 4000 640 0.95 31 2500 = SolGOR.standing 2500 640 0.95 31 2500 ∧
    SolGOR.lasater 4000 640 0.95 31 2500 = SolGOR.lasater 2500 640 0.95 31 2500 ∧
    SolGOR.vazquez 4000 640 0.95 31 2500 0 0 = SolGOR.vazquez 2500 640 0.95 31 2500 0 0 ∧
    SolGOR.glaso 4000 640 0.95 31 2500 = SolGOR.glaso 2500 640 0.95 31 2500 ∧
    SolGOR.total 4000 640 0.95 31 2500 = SolGOR.total 2500 640 0.95 31 2500 ∧
    SolGOR.almarhoun 4000 640 0.95 31 2500 = SolGOR.almarhoun 2500 640 0.95 31 2500 ∧
    SolGOR.dokla_osman 4000 640 0.95 31 2500 = SolGOR.dokla_osman 2500 640 0.95 31 2500 ∧
    SolGOR.petrosky_farshad 4000 640 0.95 31 2500 = SolGOR.petrosky_farshad 2500 640 0.95 31 2500 ∧
    SolGOR.kartoatmodjo_schmidt 4000 640 0.95 31 2500 0 0 = SolGOR.kartoatmodjo_schmidt 2500 640 0.95 31 2500 0 0 :=
  c10_rs_constant_above_bubble_point 4000 640 0.95 31 2500 0 0 (by norm_num)

/-- C7 counterexample: the bubble-pressure `standing` correlation is
not lifted by the broadcasting wrapper (the vectorize decorator is
absent on its definition), contrary to the claim that every
bubble-pressure correlation accepts array-like inputs through it. -/
theorem c7_cex_bubble_pressure_not_wrapped :
    (Petpropy.catalog.find? fun e => e.modName == "oil.bubble_pressure" && e.fnName == "standing") =
      some ⟨"oil.bubble_pressure", "standing", false, some 5⟩ := by
  rfl

/-- C7 amended: the broadcasting wrapper is applied to every public
formula of the catalog except the mixture-composition, pseudocritical
and molecular-weight functions, the specific-gravity helpers, the
Wichert-Aziz corrections, the Al-Marhoun total-volumetric-factor
function, and all nine bubble-pressure correlations, which remain
scalar-only; in particular no bubble-pressure correlation is lifted. -/
theorem c7_amended_wrapper_coverage :
    ((Petpropy.catalog.filter fun e => e.modName == "oil.bubble_pressure").all
      fun e => e.decorated == false) = true ∧
    ((Petpropy.catalog.filter fun e => !e.decorated).map fun e => (e.modName, e.fnName)) =
      Petpropy.undecoratedNames := by
  exact ⟨rfl, rfl⟩

/-- C8 counterexample: the solution gas-water ratio correlation
`culberson_macketta` rounds its result to 4 decimal digits, which is
none of the digit counts 5, 6, 7 enumerated by the claim. -/
theorem c8_cex_rsw_rounds_to_four :
    (Petpropy.catalog.find? fun e =>
        e.modName == "water.solution_gas_water_ratio" && e.fnName == "culberson_macketta") =
      some ⟨"water.solution_gas_water_ratio", "culberson_macketta", true, some 4⟩ ∧
    ¬((4 : ℕ) = 5 ∨ (4 : ℕ) = 6 ∨ (4 : ℕ) = 7) := by
  exact ⟨rfl, by decide⟩

/-- C8 amended: every formula of the catalog that rounds its result
rounds to 4, 5, 6 or 7 decimal digits depending on the property family,
and the solution gas-water ratio correlations round to 4. -/
theorem c8_amended_rounding_digits :
    ((Petpropy.catalog.filterMap fun e => e.roundDigits).all
      fun d => d == 4 || d == 5 || d == 6 || d == 7) = true ∧
    ((Petpropy.catalog.filter fun e => e.modName == "water.solution_gas_water_ratio").all
      fun e => e.roundDigits == some 4) = true := by
  exact ⟨rfl, rfl⟩

/-- Auxiliary: the default head of a list agrees with its 0-th default
element. -/
theorem headD_eq_getD_zero (xs : List ℝ) : xs.headD 0 = xs.getD 0 0 := by
  cases xs <;> rfl

/-- Auxiliary: the running maximum of a constant list of positive
length is its constant. -/
theorem foldr_max_replicate (k n : ℕ) (hk : k ≠ 0) :
    (List.replicate k n).foldr max 0 = n := by
  induction k with
  | zero => exact absurd rfl hk
  | succ k ih =>
    rcases Nat.eq_zero_or_pos k with h0 | h0
    · subst h0
      simp
    · have hk' : k ≠ 0 := Nat.pos_iff_ne_zero.mp h0
      simp only [List.replicate_succ, List.foldr_cons, ih hk']
      exact max_self n

/-- Auxiliary: extracting the scalar elements back out of a list of
scalar arguments is the identity. -/
theorem map_getElt_scalar (zs : List ℝ) :
    (zs.map NpArg.scalar).map (fun a => a.getElt 0) = zs := by
  induction zs with
  | nil => rfl
  | cons z zt ih =>
    simp only [List.map_cons]
    rw [ih]
    rfl

/-- C1: the broadcasting wrapper applied to 1-D array inputs of common
length n produces an array of length n whose i-th element is the scalar
formula evaluated at the i-th elements of each input, and applied to
all-scalar inputs it returns the scalar formula value itself. -/
theorem c1_vectorize_broadcast (f : List ℝ → ℝ) (arrs : List (List ℝ)) (n i : ℕ)
    (hne : arrs ≠ []) (hlen : ∀ xs ∈ arrs, xs.length = n) (hi : i < n) :
    (∃ ys : List ℝ,
        vectorize_decorator f (arrs.map NpArg.arr) = some (NpArg.arr ys) ∧
        ys.length = n ∧
        ys.getD i 0 = f (arrs.map fun xs => xs.getD i 0)) ∧
    ∀ zs : List ℝ,
        vectorize_decorator f (zs.map NpArg.scalar) = some (NpArg.scalar (f zs)) := by
  constructor
  · have hmap : (arrs.map NpArg.arr).filterMap NpArg.lenOf = arrs.map List.length := by
      rw [List.filterMap_map]
      exact List.filterMap_eq_map_iff_forall_eq_some.mpr (fun xs _ => rfl) ▸ rfl
    have helt : ∀ j, j < n →
        ((arrs.map NpArg.arr).map fun x => x.getElt j) = arrs.map fun xs => xs.getD j 0 := by
      intro j hj
      rw [List.map_map]
      refine List.map_congr_left fun xs hxs => ?_
      have hx := hlen xs hxs
      show (if xs.length = 1 then xs.headD 0 else xs.getD j 0) = xs.getD j 0
      by_cases h1 : xs.length = 1
      · have hn1 : n = 1 := by rw [← hx, h1]
        have hj0 : j = 0 := Nat.lt_one_iff.mp (hn1 ▸ hj)
        rw [if_pos h1, hj0, headD_eq_getD_zero]
      · rw [if_neg h1]
    cases arrs with
    | nil => exact absurd rfl hne
    | cons a as =>
      have hrep : (a :: as).map List.length = List.replicate (as.length + 1) n := by
        have hmem : ∀ m ∈ (a :: as).map List.length, m = n := by
          intro m hm
          obtain ⟨xs, hxs, rfl⟩ := List.mem_map.mp hm
          exact hlen xs hxs
        have := List.eq_replicate_of_mem hmem
        simpa using this
      have hfold : (List.replicate (as.length + 1) n).foldr max 0 = n :=
        foldr_max_replicate _ _ (Nat.succ_ne_zero _)
      have hall : ((List.replicate (as.length + 1) n).all fun l => l = 1 || l = n) = true := by
        simp [List.all_eq_true, List.mem_replicate]
      refine ⟨(List.range n).map fun j => f ((a :: as).map fun xs => xs.getD j 0), ?_, ?_, ?_⟩
      · simp only [vectorize_decorator, hmap, hrep, List.replicate_succ]
        rw [← List.replicate_succ] at *
        simp only [hfold, hall, if_true]
        refine congrArg some (congrArg NpArg.arr (List.map_congr_left fun j hj => ?_))
        rw [helt j (List.mem_range.mp hj)]
      · simp
      · rw [List.getD_eq_getElem?_getD, List.getElem?_map, List.getElem?_range hi]
        rfl
  · intro zs
    have hl : (zs.map NpArg.scalar).filterMap NpArg.lenOf = [] := by
      rw [List.filterMap_map]
      exact List.filterMap_eq_nil_iff.mpr fun a _ => rfl
    simp only [vectorize_decorator, hl]
    rw [map_getElt_scalar]

/-- Witness for C1: two length-2 arrays are broadcast element-wise by
the wrapped sum formula, and an all-scalar call returns the plain sum. -/
theorem c1_witness :
    (∃ ys : List ℝ,
        vectorize_decorator sumFormula ([[1, 2], [30, 40]].map NpArg.arr) = some (NpArg.arr ys) ∧
        ys.length = 2 ∧
        ys.getD 1 0 = sumFormula ([[1, 2], [30, 40]].map fun xs => xs.getD 1 0)) ∧
    vectorize_decorator sumFormula ([5, 7].map NpArg.scalar) = some (NpArg.scalar (sumFormula [5, 7])) := by
  have h := c1_vectorize_broadcast sumFormula [[1, 2], [30, 40]] 2 1 (by simp)
    (by
      intro xs hxs
      rcases List.mem_cons.mp hxs with rfl | hxs
      · rfl
      · rcases List.mem_cons.mp hxs with rfl | hxs
        · rfl
        · exact absurd hxs (List.not_mem_nil xs))
    (by norm_num)
  exact ⟨h.1, h.2 [5, 7]⟩

/-- Auxiliary: the Dranchuk-Abou-Kassem while-loop is the generic
Newton-Raphson loop at its residual, derivative and tolerance. -/
theorem dakLoop_eq_newtonLoop (Ppr Tpr : ℝ) (n : ℕ) (z : ℝ) :
    dakLoop Ppr Tpr n z = newtonLoop (dakF Ppr Tpr) (dakdF Ppr Tpr) 0.000001 n z := by
  induction n generalizing z with
  | zero => rfl
  | succ n ih =>
    simp only [dakLoop, newtonLoop]
    split_ifs with h
    · rfl
    · exact ih _

/-- Auxiliary: the Dranchuk-Purvis-Robinson while-loop is the generic
Newton-Raphson loop at its residual, derivative and tolerance. -/
theorem dprLoop_eq_newtonLoop (Ppr Tpr : ℝ) (n : ℕ) (z : ℝ) :
    dprLoop Ppr Tpr n z = newtonLoop (dprF Ppr Tpr) (dprdF Ppr Tpr) 0.000001 n z := by
  induction n generalizing z with
  | zero => rfl
  | succ n ih =>
    simp only [dprLoop, newtonLoop]
    split_ifs with h
    · rfl
    · exact ih _

/-- Auxiliary: the Hall-Yarborough while-loop is the generic
Newton-Raphson loop at its residual, derivative and tolerance. -/
theorem hyLoop_eq_newtonLoop (A B C D Ppr : ℝ) (n : ℕ) (y : ℝ) :
    hyLoop A B C D Ppr n y = newtonLoop (hyF A B C D Ppr) (hydF B C D) 0.00001 n y := by
  induction n generalizing y with
  | zero => rfl
  | succ n ih =>
    simp only [hyLoop, newtonLoop]
    split_ifs with h
    · rfl
    · exact ih _

/-- C4: both Dranchuk solvers run a Newton-Raphson loop from initial
guess 0.5 with tolerance 1e-6 and at most 1000 iterations, and return
not the last Newton iterate but the direct equation-of-state formula
re-evaluated at the reduced density computed from the final iterate. -/
theorem c4_dranchuk_newton_reevaluates_eos (P T Ppc Tpc : ℝ)
    (hP : 0 < P) (hT : 0 < T) (hPpc : 0 < Ppc) (hTpc : 0 < Tpc) :
    dranchuk_abou_kassem P T Ppc Tpc =
      dakEOS (T / Tpc) (drRho (P / Ppc) (T / Tpc)
        (newtonLoop (dakF (P / Ppc) (T / Tpc)) (dakdF (P / Ppc) (T / Tpc)) 0.000001 1000 0.5)) ∧
    dranchuk_purvis_robinson P T Ppc Tpc =
      dprEOS (T / Tpc) (drRho (P / Ppc) (T / Tpc)
        (newtonLoop (dprF (P / Ppc) (T / Tpc)) (dprdF (P / Ppc) (T / Tpc)) 0.000001 1000 0.5)) := by
  constructor
  · simp only [dranchuk_abou_kassem]
    rw [dakLoop_eq_newtonLoop]
  · simp only [dranchuk_purvis_robinson]
    rw [dprLoop_eq_newtonLoop]

/-- Witness for C4 at the strictly positive input P=T=Ppc=Tpc=1. -/
theorem c4_witness :
    dranchuk_abou_kassem 1 1 1 1 =
      dakEOS ((1 : ℝ) / 1) (drRho ((1 : ℝ) / 1) ((1 : ℝ) / 1)
        (newtonLoop (dakF ((1 : ℝ) / 1) ((1 : ℝ) / 1)) (dakdF ((1 : ℝ) / 1) ((1 : ℝ) / 1)) 0.000001 1000 0.5)) ∧
    dranchuk_purvis_robinson 1 1 1 1 =
      dprEOS ((1 : ℝ) / 1) (drRho ((1 : ℝ) / 1) ((1 : ℝ) / 1)
        (newtonLoop (dprF ((1 : ℝ) / 1) ((1 : ℝ) / 1)) (dprdF ((1 : ℝ) / 1) ((1 : ℝ) / 1)) 0.000001 1000 0.5)) :=
  c4_dranchuk_newton_reevaluates_eos 1 1 1 1 (by norm_num) (by norm_num) (by norm_num) (by norm_num)

/-- C3 (amended): the Hall-Yarborough solver is Newton-Raphson from the
fixed initial guess 1e-5 with tolerance 1e-5 and at most 1000
iterations, never raising on non-convergence, and the returned z is
(0.06125 · Ppr · t · exp(-1.2(1-t)²)) divided by the final iterate with
t = Tpc/T — where the recovery constant 0.06125 differs from the
constant 0.06123 used in the residual coefficient A. -/
theorem c3_hall_yarborough_algorithm (P T Ppc Tpc : ℝ)
    (hP : 0 < P) (hT : 0 < T) (hPpc : 0 < Ppc) (hTpc : 0 < Tpc) :
    hall_yarborough P T Ppc Tpc = hall_yarborough_spec P T Ppc Tpc := by
  simp only [hall_yarborough, hall_yarborough_spec, hyLoop_eq_newtonLoop, one_div_div]

/-- Witness for C3 at the strictly positive input P=T=Ppc=Tpc=1. -/
theorem c3_witness :
    hall_yarborough 1 1 1 1 = hall_yarborough_spec 1 1 1 1 :=
  c3_hall_yarborough_algorithm 1 1 1 1 (by norm_num) (by norm_num) (by norm_num) (by norm_num)

/-- Auxiliary: one unfolding step of the Hall-Yarborough while-loop. -/
theorem hyLoop_succ (A B C D Ppr : ℝ) (n : ℕ) (y : ℝ) :
    hyLoop A B C D Ppr (n + 1) y =
      if |hyF A B C D Ppr y| < 0.00001 then y - hyF A B C D Ppr y / hydF B C D y
      else hyLoop A B C D Ppr n (y - hyF A B C D Ppr y / hydF B C D y) := rfl

/-- C3 counterexample: at P=0.0001, T=Ppc=Tpc=1 (strictly positive
inputs, reduced temperature 1, first residual already below tolerance
so the loop stops after one Newton update) the value returned by the
Hall-Yarborough solver differs from the value the claim prescribes,
because the recovery of z uses 0.06125 while the residual coefficient A
uses 0.06123. -/
theorem c3_cex_recovery_constant :
    hall_yarborough 0.0001 1 1 1 ≠ hall_yarborough_claimed 0.0001 1 1 1 := by
  have hrw5 : (0.00001 : ℝ) ^ (5 : ℝ) = (0.00001 : ℝ) ^ (5 : ℕ) := by
    rw [show (5 : ℝ) = ((5 : ℕ) : ℝ) by norm_num]
    exact Real.rpow_natCast _ 5
  have hrw4 : (0.00001 : ℝ) ^ ((5 : ℝ) - 1) = (0.00001 : ℝ) ^ (4 : ℕ) := by
    rw [show (5 : ℝ) - 1 = ((4 : ℕ) : ℝ) by norm_num]
    exact Real.rpow_natCast _ 4
  have hF : |hyF 0.06123 9.85 (-109.1) 5 0.0001 0.00001| < 0.00001 := by
    unfold hyF
    rw [hrw5, abs_lt]
    constructor <;> norm_num
  have hstep : hyLoop 0.06123 9.85 (-109.1) 5 0.0001 1000 0.00001 =
      0.00001 - hyF 0.06123 9.85 (-109.1) 5 0.0001 0.00001 / hydF 9.85 (-109.1) 5 0.00001 := by
    rw [show (1000 : ℕ) = 999 + 1 from rfl, hyLoop_succ, if_pos hF]
  have hYne : hyLoop 0.06123 9.85 (-109.1) 5 0.0001 1000 0.00001 ≠ 0 := by
    rw [hstep]
    unfold hyF hydF
    rw [hrw5, hrw4]
    norm_num
  have h1 : hall_yarborough 0.0001 1 1 1 =
      0.06125 * 0.0001 / hyLoop 0.06123 9.85 (-109.1) 5 0.0001 1000 0.00001 := by
    simp only [hall_yarborough]
    norm_num [Real.exp_zero]
  have h2 : hall_yarborough_claimed 0.0001 1 1 1 =
      0.06123 * 0.0001 / hyLoop 0.06123 9.85 (-109.1) 5 0.0001 1000 0.00001 := by
    simp only [hall_yarborough_claimed]
    norm_num [Real.exp_zero]
  intro heq
  rw [h1, h2] at heq
  have h3 := (div_eq_div_iff hYne hYne).mp heq
  have h4 := mul_right_cancel₀ hYne h3
  norm_num at h4

/-- Auxiliary: rounding to five decimals moves a real by less than 1. -/
theorem roundTo_five_bounds (x : ℝ) :
    x - 1 ≤ Petpropy.roundTo 5 x ∧ Petpropy.roundTo 5 x ≤ x + 1 := by
  have h := abs_sub_round (x * 10 ^ (5 : ℕ))
  rw [abs_le] at h
  have h10 : ((10 : ℝ) ^ (5 : ℕ)) = 100000 := by norm_num
  simp only [Petpropy.roundTo, h10] at *
  constructor
  · rw [le_div_iff₀ (by norm_num : (0 : ℝ) < 100000)]
    linarith [h.1, h.2]
  · rw [div_le_iff₀ (by norm_num : (0 : ℝ) < 100000)]
    linarith [h.1, h.2]

/-- C5 (code bug): inverse-function consistency between the
Vazquez-Beggs bubble pressure and the Vazquez-Beggs solution gas-oil
ratio fails: at R_sb=675, gamma_gas=0.95, T=640, API=31 with no
corrections, evaluating the solution ratio at P = Pb returns a value
below half of R_sb (the bubble-pressure formula divides the exponent by
T-460 while the solution-ratio formula divides by T), so the claimed
1e-6 relative agreement is violated. -/
theorem c5_vazquez_inverse_violation :
    ¬ (|SolGOR.vazquez (BubblePressure.vazquez_beggs 675 0.95 640 31 0 0 0 0 0) 640 0.95 31
        (BubblePressure.vazquez_beggs 675 0.95 640 31 0 0 0 0 0) 0 0 - 675| ≤ 1e-6 * 675) := by
  have hPb : BubblePressure.vazquez_beggs 675 0.95 640 31 0 0 0 0 0 =
      Petpropy.roundTo 5 ((675 / (0.0178 * 0.95 * exp (23.931 * 31 / 180))) ^ ((1 : ℝ) / 1.1870)) := by
    simp only [BubblePressure.vazquez_beggs]
    norm_num
  have hRs : ∀ x : ℝ, SolGOR.vazquez x 640 0.95 31 x 0 0 =
      0.0178 * 0.95 * x ^ (1.1870 : ℝ) * exp (23.931 * 31 / 640) := by
    intro x
    simp only [SolGOR.vazquez]
    norm_num
  intro hcon
  rw [hRs, hPb] at hcon
  set Pbraw : ℝ := (675 / (0.0178 * 0.95 * exp (23.931 * 31 / 180))) ^ ((1 : ℝ) / 1.1870) with hPbraw
  set Pbv : ℝ := Petpropy.roundTo 5 Pbraw with hPbv
  have hE1pos : (0 : ℝ) < exp (23.931 * 31 / 180) := exp_pos _
  have hE2pos : (0 : ℝ) < exp (23.931 * 31 / 640) := exp_pos _
  have hE1le : exp ((23.931 : ℝ) * 31 / 180) ≤ 149 := by
    have h5 : ((23.931 : ℝ) * 31 / 180) ≤ 5 := by norm_num
    have ha : exp ((23.931 : ℝ) * 31 / 180) ≤ exp 5 := exp_le_exp.mpr h5
    have h5e : exp (5 : ℝ) = exp 1 ^ (5 : ℕ) := by
      rw [← Real.exp_nat_mul]
      norm_num
    have hlt : exp 1 ^ (5 : ℕ) ≤ (2.7182818286 : ℝ) ^ (5 : ℕ) :=
      pow_le_pow_left₀ (exp_pos 1).le Real.exp_one_lt_d9.le 5
    have hb : (2.7182818286 : ℝ) ^ (5 : ℕ) ≤ 149 := by norm_num
    calc exp ((23.931 : ℝ) * 31 / 180) ≤ exp 5 := ha
      _ = exp 1 ^ (5 : ℕ) := h5e
      _ ≤ (2.7182818286 : ℝ) ^ (5 : ℕ) := hlt
      _ ≤ 149 := hb
  have hQ1 : (1 : ℝ) ≤ 675 / (0.0178 * 0.95 * exp (23.931 * 31 / 180)) := by
    rw [one_le_div (by positivity)]
    linarith [hE1le]
  have hQpos : (0 : ℝ) < 675 / (0.0178 * 0.95 * exp (23.931 * 31 / 180)) := by positivity
  have hPbraw1 : (1 : ℝ) ≤ Pbraw := by
    rw [hPbraw]
    calc (1 : ℝ) = (1 : ℝ) ^ ((1 : ℝ) / 1.1870) := (Real.one_rpow _).symm
      _ ≤ (675 / (0.0178 * 0.95 * exp (23.931 * 31 / 180))) ^ ((1 : ℝ) / 1.1870) :=
        Real.rpow_le_rpow (by norm_num) hQ1 (by norm_num)
  have hPbrawpos : (0 : ℝ) < Pbraw := lt_of_lt_of_le one_pos hPbraw1
  have hround := roundTo_five_bounds Pbraw
  have hPbv_le : Pbv ≤ 2 * Pbraw := by
    rw [hPbv]
    linarith [hround.2, hPbraw1]
  have hPbv_nonneg : (0 : ℝ) ≤ Pbv := by
    rw [hPbv]
    linarith [hround.1, hPbraw1]
  have hpow : Pbv ^ (1.1870 : ℝ) ≤ 4 * (675 / (0.0178 * 0.95 * exp (23.931 * 31 / 180))) := by
    have h1 : Pbv ^ (1.1870 : ℝ) ≤ (2 * Pbraw) ^ (1.1870 : ℝ) :=
      Real.rpow_le_rpow hPbv_nonneg hPbv_le (by norm_num)
    have h2 : ((2 : ℝ) * Pbraw) ^ (1.1870 : ℝ) = (2 : ℝ) ^ (1.1870 : ℝ) * Pbraw ^ (1.1870 : ℝ) :=
      Real.mul_rpow (by norm_num) hPbrawpos.le
    have h3 : (2 : ℝ) ^ (1.1870 : ℝ) ≤ (2 : ℝ) ^ (2 : ℝ) :=
      Real.rpow_le_rpow_of_exponent_le (by norm_num) (by norm_num)
    have h4 : (2 : ℝ) ^ (2 : ℝ) = 4 := by
      rw [show (2 : ℝ) = ((2 : ℕ) : ℝ) from by norm_num, Real.rpow_natCast]
      norm_num
    have h5 : Pbraw ^ (1.1870 : ℝ) = 675 / (0.0178 * 0.95 * exp (23.931 * 31 / 180)) := by
      rw [hPbraw, ← Real.rpow_mul hQpos.le,
        show ((1 : ℝ) / 1.1870 * 1.1870) = 1 from by norm_num, Real.rpow_one]
    calc Pbv ^ (1.1870 : ℝ) ≤ (2 * Pbraw) ^ (1.1870 : ℝ) := h1
      _ = (2 : ℝ) ^ (1.1870 : ℝ) * Pbraw ^ (1.1870 : ℝ) := h2
      _ = (2 : ℝ) ^ (1.1870 : ℝ) * (675 / (0.0178 * 0.95 * exp (23.931 * 31 / 180))) := by rw [h5]
      _ ≤ 4 * (675 / (0.0178 * 0.95 * exp (23.931 * 31 / 180))) :=
        mul_le_mul_of_nonneg_right (h3.trans h4.le) hQpos.le
  have hexp296 : exp (-2.96 : ℝ) ≤ 1 / 14 := by
    rw [Real.exp_neg]
    have he : exp (2.96 : ℝ) = exp 1 * exp 1 * exp 0.96 := by
      rw [← Real.exp_add, ← Real.exp_add]
      norm_num
    have h1 : (2.71 : ℝ) ≤ exp 1 := by linarith [Real.exp_one_gt_d9]
    have h2 : (1.96 : ℝ) ≤ exp 0.96 := by linarith [Real.add_one_le_exp (0.96 : ℝ)]
    have p1 : (2.71 : ℝ) * 2.71 ≤ exp 1 * exp 1 :=
      mul_le_mul h1 h1 (by norm_num) (exp_pos 1).le
    have p2 : ((2.71 : ℝ) * 2.71) * 1.96 ≤ (exp 1 * exp 1) * exp 0.96 :=
      mul_le_mul p1 h2 (by norm_num) (by positivity)
    have h14 : (14 : ℝ) ≤ exp 2.96 := by
      rw [he]
      linarith [p2]
    have hinv : (exp (2.96 : ℝ))⁻¹ ≤ (14 : ℝ)⁻¹ := by
      apply inv_anti₀ (by norm_num) h14
    linarith [hinv]
  have hRs_le : 0.0178 * 0.95 * Pbv ^ (1.1870 : ℝ) * exp (23.931 * 31 / 640) ≤ 340 := by
    have hc : (0 : ℝ) ≤ 0.0178 * 0.95 := by norm_num
    have s1 : 0.0178 * 0.95 * Pbv ^ (1.1870 : ℝ) * exp (23.931 * 31 / 640) ≤
        0.0178 * 0.95 * (4 * (675 / (0.0178 * 0.95 * exp (23.931 * 31 / 180)))) * exp (23.931 * 31 / 640) :=
      mul_le_mul_of_nonneg_right (mul_le_mul_of_nonneg_left hpow hc) hE2pos.le
    have s2 : 0.0178 * 0.95 * (4 * (675 / (0.0178 * 0.95 * exp (23.931 * 31 / 180)))) * exp (23.931 * 31 / 640)
        = 2700 * (exp (23.931 * 31 / 640) / exp (23.931 * 31 / 180)) := by
      field_simp
      ring
    have s3 : exp ((23.931 : ℝ) * 31 / 640) / exp ((23.931 : ℝ) * 31 / 180) =
        exp (23.931 * 31 / 640 - 23.931 * 31 / 180) := (Real.exp_sub _ _).symm
    have s4 : exp ((23.931 : ℝ) * 31 / 640 - 23.931 * 31 / 180) ≤ exp (-2.96 : ℝ) :=
      exp_le_exp.mpr (by norm_num)
    calc 0.0178 * 0.95 * Pbv ^ (1.1870 : ℝ) * exp (23.931 * 31 / 640) ≤
        0.0178 * 0.95 * (4 * (675 / (0.0178 * 0.95 * exp (23.931 * 31 / 180)))) * exp (23.931 * 31 / 640) := s1
      _ = 2700 * (exp (23.931 * 31 / 640) / exp (23.931 * 31 / 180)) := s2
      _ = 2700 * exp (23.931 * 31 / 640 - 23.931 * 31 / 180) := by rw [s3]
      _ ≤ 2700 * (1 / 14) := mul_le_mul_of_nonneg_left (s4.trans hexp296) (by norm_num)
      _ ≤ 340 := by norm_num
  have habs : (675 : ℝ) - 0.0178 * 0.95 * Pbv ^ (1.1870 : ℝ) * exp (23.931 * 31 / 640) ≤
      |0.0178 * 0.95 * Pbv ^ (1.1870 : ℝ) * exp (23.931 * 31 / 640) - 675| := by
    rw [abs_sub_comm]
    exact le_abs_self _
  have hfin : (1e-6 : ℝ) * 675 < 675 - 340 := by norm_num
  linarith [hcon, hRs_le, habs, hfin]
